import Mathlib

/-!
Shallow embedding of the paystack-wallet-service backend.

The definitions below translate, route by route, the handlers and services of
the repository: the key routes and the key service are translated from the
staged sources, and each component whose source is absent from the staging
(the webhook handler, the permission middleware, the transfer route chain,
the revoke service call) is modelled from the words of the spec, with a
Modelled-from-the-spec marker on its doc comment. The transfer handler
follows the behavior of the source that spec sections 4.2 and 9 record
explicitly, including its known defects. The document store is modelled as in-memory
lists; `findOne` becomes `List.find?` and a mongoose `save` becomes a
replacement keyed by the unique field of the schema (walletNumber and userId
are unique on wallets, reference is unique on transactions, keyHash is unique
on keys). Amounts, balances and timestamps are integers (minor currency units
and epoch milliseconds). SHA-256 hashing of secrets is an external library
call and is therefore a parameter of the key-service functions.
-/

/-- A wallet document, from the schema in `src/models/Wallet.ts`. -/
structure Wallet where
  walletNumber : String
  balance : Int
  userId : String
deriving DecidableEq, Repr

/-- A transaction document, from the schema in `src/models/Transaction.ts`. -/
structure Transaction where
  reference : String
  amount : Int
  type : String
  status : String
  paystackAuthorizationUrl : Option String
  userId : Option String
  senderId : Option String
  receiverId : Option String
  paidAt : Option Int
deriving DecidableEq, Repr

/-- The wallet-facing slice of the document store. -/
structure DB where
  wallets : List Wallet
  transactions : List Transaction
deriving DecidableEq, Repr

/-- Persisting a wallet document replaces the stored wallet with the same
userId, which is unique per the schema. -/
def saveWallet (ws : List Wallet) (w : Wallet) : List Wallet :=
  ws.map (fun x => if x.userId == w.userId then w else x)

/-- The JSON bodies the transfer handler can send, plus `noResponse` for the
fall-through path where the handler returns without sending anything. -/
inductive TransferResponse where
  | selfDenied
  | insufficientBalance
  | walletNumberNotFound
  | transferCompleted
  | noResponse
deriving DecidableEq, Repr

/-- The POST /wallet/transfer handler, as spec sections 4.2 and 9 record the
source behavior. The caller wallet is looked up by userId; the handler then
tests `hasWallet.userId == userId` before anything else, the guard spec
section 9 flags as comparing the caller wallet record to itself, compares
balance with the amount, resolves the recipient by wallet number, credits the
recipient, debits the caller and appends a type=transfer status=success
transaction whose reference is the freshly generated `ref`. When the caller
has no wallet the handler falls through without responding, the silent
failure spec section 9 records. -/
def walletTransfer (db : DB) (userId : String) (amount : Int)
    (wallet_number : String) (ref : String) : DB × TransferResponse :=
  match db.wallets.find? (fun w => w.userId == userId) with
  | none => (db, TransferResponse.noResponse)
  | some hasWallet =>
    if hasWallet.userId == userId then
      (db, TransferResponse.selfDenied)
    else if amount ≤ hasWallet.balance then
      match db.wallets.find? (fun w => w.walletNumber == wallet_number) with
      | some recipientWallet =>
        let wallets1 := saveWallet db.wallets
          { recipientWallet with balance := recipientWallet.balance + amount }
        let wallets2 := saveWallet wallets1
          { hasWallet with balance := hasWallet.balance - amount }
        let txn : Transaction :=
          { reference := ref, amount := amount, type := "transfer",
            status := "success", paystackAuthorizationUrl := none,
            userId := none, senderId := some userId,
            receiverId := some recipientWallet.userId, paidAt := none }
        ({ wallets := wallets2, transactions := db.transactions ++ [txn] },
         TransferResponse.transferCompleted)
      | none => (db, TransferResponse.walletNumberNotFound)
    else (db, TransferResponse.insufficientBalance)

/-- Claim C1: with the caller owning a sufficiently funded wallet and a
recipient wallet owned by another user resolved from the given wallet number,
the transfer handler still answers with the self-transfer denial and mutates
nothing, because the guard compares the caller wallet owner to the caller. -/
theorem transfer_selfcheck_blocks_valid_transfer :
    walletTransfer
      { wallets := [{ walletNumber := "0000000000001", balance := 100, userId := "u1" },
                    { walletNumber := "0000000000002", balance := 5, userId := "u2" }],
        transactions := [] }
      "u1" 50 "0000000000002" "R1"
    = ({ wallets := [{ walletNumber := "0000000000001", balance := 100, userId := "u1" },
                     { walletNumber := "0000000000002", balance := 5, userId := "u2" }],
         transactions := [] },
       TransferResponse.selfDenied) := by
  rfl

/-- Claim C2: the self-transfer denial is not equivalent to the resolved
recipient wallet being owned by the caller: here the recipient wallet
2222222222222 is owned by u9, distinct from the caller u1, yet the handler
answers with the self-transfer denial, because the guard tests the wallet of
the caller against the caller. -/
theorem transfer_selfDenied_without_self_recipient :
    (walletTransfer
       { wallets := [{ walletNumber := "1111111111111", balance := 80, userId := "u1" },
                     { walletNumber := "2222222222222", balance := 7, userId := "u9" }],
         transactions := [] }
       "u1" 10 "2222222222222" "R2"
     = ({ wallets := [{ walletNumber := "1111111111111", balance := 80, userId := "u1" },
                      { walletNumber := "2222222222222", balance := 7, userId := "u9" }],
          transactions := [] },
        TransferResponse.selfDenied))
    ∧ ((List.find? (fun w => w.walletNumber == "2222222222222")
          [({ walletNumber := "1111111111111", balance := 80, userId := "u1" } : Wallet),
           { walletNumber := "2222222222222", balance := 7, userId := "u9" }])
        = some { walletNumber := "2222222222222", balance := 7, userId := "u9" })
    ∧ ¬("u9" = "u1") := by
  refine ⟨rfl, rfl, by decide⟩

/-- Claim C4: with the requested amount 50 strictly above the caller balance
5 no wallet is mutated, as the claim states, but the response is the
self-transfer denial rather than the insufficient-funds failure, because the
broken self check fires first. -/
theorem transfer_insufficient_funds_misreported :
    (walletTransfer
       { wallets := [{ walletNumber := "3333333333333", balance := 5, userId := "u1" },
                     { walletNumber := "4444444444444", balance := 0, userId := "u2" }],
         transactions := [] }
       "u1" 50 "4444444444444" "R3"
     = ({ wallets := [{ walletNumber := "3333333333333", balance := 5, userId := "u1" },
                      { walletNumber := "4444444444444", balance := 0, userId := "u2" }],
          transactions := [] },
        TransferResponse.selfDenied))
    ∧ TransferResponse.selfDenied ≠ TransferResponse.insufficientBalance := by
  refine ⟨rfl, by decide⟩

/-- An API key document, from the schema in `src/models/Key.ts`. -/
structure ApiKey where
  userId : String
  keyHash : String
  name : String
  permissions : List String
  expiresAt : Int
  isRevoked : Bool
deriving DecidableEq, Repr

/-- Persisting a key document replaces the stored key with the same keyHash,
which is unique per the schema. -/
def saveKey (ks : List ApiKey) (k : ApiKey) : List ApiKey :=
  ks.map (fun x => if x.keyHash == k.keyHash then k else x)

/-- Decimal digits to a number, standing in for the parseInt library call of
`src/services/key.service.ts`: every character must be a digit. -/
def parseDecimalDigits : List Char → Nat → Option Nat
  | [], acc => some acc
  | c :: cs, acc =>
    if 48 ≤ c.toNat ∧ c.toNat ≤ 57 then
      parseDecimalDigits cs (acc * 10 + (c.toNat - 48))
    else none

/-- parseInt on a whole string: empty or non-numeric input is an error. -/
def parseDecimal : List Char → Option Nat
  | [] => none
  | cs => parseDecimalDigits cs 0

/-- The calculateExpiry helper of `src/services/key.service.ts` lines 65 to
82: the unit is the last character of the expiry string, the value its
numeric prefix; H, D, M and Y map to hours, days, 30-day months and 365-day
years in milliseconds from now; anything else is an error, modelled as
`none`. -/
def calculateExpiry (now : Int) (expiry : String) : Option Int :=
  match expiry.data.getLast? with
  | none => none
  | some unit =>
    match parseDecimal expiry.data.dropLast with
    | none => none
    | some value =>
      if unit = 'H' then some (now + (value : Int) * 60 * 60 * 1000)
      else if unit = 'D' then some (now + (value : Int) * 24 * 60 * 60 * 1000)
      else if unit = 'M' then some (now + (value : Int) * 30 * 24 * 60 * 60 * 1000)
      else if unit = 'Y' then some (now + (value : Int) * 365 * 24 * 60 * 60 * 1000)
      else none

/-- keyService.createKey, `src/services/key.service.ts` lines 5 to 24: the
plaintext secret prefixes the fresh random hex with sk_live_, only its hash is
stored, and the created document is appended with isRevoked false; `randomKey`
stands for the random bytes and `hash` for the SHA-256 library call. -/
def createKey (hash : String → String) (now : Int) (randomKey : String)
    (keys : List ApiKey) (userId name : String) (permissions : List String)
    (expiry : String) : Option (List ApiKey × ApiKey × String) :=
  let key := "sk_live_" ++ randomKey
  let keyHash := hash key
  match calculateExpiry now expiry with
  | none => none
  | some exp =>
    let createdKey : ApiKey :=
      { userId := userId, keyHash := keyHash, name := name,
        permissions := permissions, expiresAt := exp, isRevoked := false }
    some (keys ++ [createdKey], createdKey, key)

/-- keyService.countActiveKeys, `src/services/key.service.ts` lines 26 to 33:
count of keys of the owner that are not revoked and expire strictly after
now. -/
def countActiveKeys (now : Int) (keys : List ApiKey) (userId : String) : Nat :=
  (keys.filter (fun k => k.userId == userId && !k.isRevoked && decide (now < k.expiresAt))).length

/-- The outcomes of keyService.rolloverKey as surfaced by the route. -/
inductive RolloverResponse where
  | notFoundOrRevoked
  | notYetExpired
  | invalidExpiry
  | ok (createdKey : ApiKey) (plaintext : String)
deriving DecidableEq, Repr

/-- keyService.rolloverKey, `src/services/key.service.ts` lines 35 to 62:
hash the presented secret, find a non-revoked key of the caller with that
hash; absent means an error; a key expiring strictly after now means a
not-yet-expired error; otherwise the found key is saved with isRevoked true
and createKey runs with the same name and permissions and the new expiry. -/
def rolloverKey (hash : String → String) (now : Int) (randomKey : String)
    (keys : List ApiKey) (userId expiredKey expiry : String) :
    List ApiKey × RolloverResponse :=
  match keys.find? (fun x => x.userId == userId && x.keyHash == hash expiredKey && !x.isRevoked) with
  | none => (keys, RolloverResponse.notFoundOrRevoked)
  | some existingKey =>
    if now < existingKey.expiresAt then (keys, RolloverResponse.notYetExpired)
    else
      let keys1 := saveKey keys { existingKey with isRevoked := true }
      match createKey hash now randomKey keys1 userId existingKey.name
        existingKey.permissions expiry with
      | none => (keys1, RolloverResponse.invalidExpiry)
      | some (keys2, createdKey, key) => (keys2, RolloverResponse.ok createdKey key)

/-- Modelled from the spec: `keyService.revokeKey` is invoked by the revoke
route at `src/routes/key.routes.ts` line 283 but no implementation of it
exists among the sources; section 4.3 of the spec defines Revoke: hash the
presented secret and find a matching non-revoked key owned by the caller;
fail NotFound if absent or already revoked; otherwise set revoked to true and
return the display name of the key, here as `some name`. -/
def revokeKey (hash : String → String) (keys : List ApiKey)
    (userId presented : String) : List ApiKey × Option String :=
  match keys.find? (fun x => x.userId == userId && x.keyHash == hash presented && !x.isRevoked) with
  | none => (keys, none)
  | some k => (saveKey keys { k with isRevoked := true }, some k.name)

/-- The JSON responses of the POST /keys/revoke route. -/
inductive RevokeResponse where
  | badRequest
  | revoked (name : String)
  | notFound
deriving DecidableEq, Repr

/-- The POST /keys/revoke handler, `src/routes/key.routes.ts` lines 268 to
304: a missing api_key field is a 400; a successful revoke returns 200 with
the display name; the not-found error from the service maps to a 404. -/
def revokeHandler (hash : String → String) (keys : List ApiKey)
    (userId api_key : String) : List ApiKey × RevokeResponse :=
  if api_key = "" then (keys, RevokeResponse.badRequest)
  else
    match revokeKey hash keys userId api_key with
    | (keys1, some name) => (keys1, RevokeResponse.revoked name)
    | (_, none) => (keys, RevokeResponse.notFound)

/-- The JSON responses of the POST /keys/create route. -/
inductive CreateKeyResponse where
  | badRequest
  | limitExceeded
  | serverError
  | created (api_key : String) (expires_at : Int)
deriving DecidableEq, Repr

/-- The POST /keys/create handler, `src/routes/key.routes.ts` lines 75 to
117: missing fields are a 400; five or more active keys are a 403
limit_exceeded; otherwise keyService.createKey runs and its result is a 201
carrying the plaintext key and the expiry. -/
def createKeyHandler (hash : String → String) (now : Int) (randomKey : String)
    (keys : List ApiKey) (userId name : String) (permissions : List String)
    (expiry : String) : List ApiKey × CreateKeyResponse :=
  if name = "" ∨ expiry = "" then (keys, CreateKeyResponse.badRequest)
  else if 5 ≤ countActiveKeys now keys userId then (keys, CreateKeyResponse.limitExceeded)
  else
    match createKey hash now randomKey keys userId name permissions expiry with
    | none => (keys, CreateKeyResponse.serverError)
    | some (keys1, createdKey, key) =>
      (keys1, CreateKeyResponse.created key createdKey.expiresAt)

/-- Claim C7: for a revoke request carrying a non-empty secret, when a
non-revoked key owned by the caller matches the hash of the presented secret
the handler persists that key with isRevoked true and answers 200 with its
display name, and otherwise it answers 404. -/
theorem revokeHandler_spec (hash : String → String) (keys : List ApiKey)
    (userId api_key : String) (hk : ¬ api_key = "") :
    (∀ k, keys.find? (fun x => x.userId == userId && x.keyHash == hash api_key && !x.isRevoked) = some k →
       revokeHandler hash keys userId api_key
         = (saveKey keys { k with isRevoked := true }, RevokeResponse.revoked k.name))
    ∧ (keys.find? (fun x => x.userId == userId && x.keyHash == hash api_key && !x.isRevoked) = none →
       revokeHandler hash keys userId api_key = (keys, RevokeResponse.notFound)) := by
  constructor
  · intro k hf
    simp [revokeHandler, revokeKey, hk, hf]
  · intro hf
    simp [revokeHandler, revokeKey, hk, hf]

/-- Witness for claim C7: with hashing modelled as appending a hash mark, the
stored key of u8 matches the presented secret and is revoked with its name
returned. -/
theorem revokeHandler_spec_witness :
    revokeHandler (fun s => s ++ "#")
      [{ userId := "u8", keyHash := "secret9#", name := "main",
         permissions := ["read"], expiresAt := 77, isRevoked := false }]
      "u8" "secret9"
    = (saveKey
        [{ userId := "u8", keyHash := "secret9#", name := "main",
           permissions := ["read"], expiresAt := 77, isRevoked := false }]
        { userId := "u8", keyHash := "secret9#", name := "main",
          permissions := ["read"], expiresAt := 77, isRevoked := true },
       RevokeResponse.revoked "main") :=
  (revokeHandler_spec (fun s => s ++ "#")
    [{ userId := "u8", keyHash := "secret9#", name := "main",
       permissions := ["read"], expiresAt := 77, isRevoked := false }]
    "u8" "secret9" (by decide)).1
    { userId := "u8", keyHash := "secret9#", name := "main",
      permissions := ["read"], expiresAt := 77, isRevoked := false } rfl

/-- Claim C8: a key-creation request with non-empty fields by a user already
holding five or more non-revoked, non-expired keys fails with the 403
limit_exceeded response, no key is created and the stored keys are returned
unchanged. -/
theorem createKeyHandler_limit (hash : String → String) (now : Int)
    (randomKey : String) (keys : List ApiKey) (userId name : String)
    (permissions : List String) (expiry : String)
    (hname : ¬ name = "") (hexpiry : ¬ expiry = "")
    (hcount : 5 ≤ countActiveKeys now keys userId) :
    createKeyHandler hash now randomKey keys userId name permissions expiry
      = (keys, CreateKeyResponse.limitExceeded) := by
  simp [createKeyHandler, hname, hexpiry, hcount]

/-- Witness for claim C8: a user with exactly five active keys is denied a
sixth and the store is unchanged. -/
theorem createKeyHandler_limit_witness :
    createKeyHandler (fun s => s) 0 "rnd"
      [{ userId := "u11", keyHash := "k1", name := "a", permissions := ["read"], expiresAt := 100, isRevoked := false },
       { userId := "u11", keyHash := "k2", name := "b", permissions := ["read"], expiresAt := 100, isRevoked := false },
       { userId := "u11", keyHash := "k3", name := "c", permissions := ["read"], expiresAt := 100, isRevoked := false },
       { userId := "u11", keyHash := "k4", name := "d", permissions := ["read"], expiresAt := 100, isRevoked := false },
       { userId := "u11", keyHash := "k5", name := "e", permissions := ["read"], expiresAt := 100, isRevoked := false }]
      "u11" "f" ["read"] "1H"
    = ([{ userId := "u11", keyHash := "k1", name := "a", permissions := ["read"], expiresAt := 100, isRevoked := false },
        { userId := "u11", keyHash := "k2", name := "b", permissions := ["read"], expiresAt := 100, isRevoked := false },
        { userId := "u11", keyHash := "k3", name := "c", permissions := ["read"], expiresAt := 100, isRevoked := false },
        { userId := "u11", keyHash := "k4", name := "d", permissions := ["read"], expiresAt := 100, isRevoked := false },
        { userId := "u11", keyHash := "k5", name := "e", permissions := ["read"], expiresAt := 100, isRevoked := false }],
       CreateKeyResponse.limitExceeded) :=
  createKeyHandler_limit _ _ _ _ _ _ _ _ (by decide) (by decide) (by decide)

/-- Claim C9: when a non-revoked key of the caller matches the hash of the
presented secret, a rollover fails with the not-yet-expired error and touches
no key while the key expires strictly after now; once the expiry has passed,
the found key is saved with isRevoked true and a fresh key is appended with
the same display name and the same permission list, expiring per the new
expiry spec. -/
theorem rolloverKey_spec (hash : String → String) (now : Int) (randomKey : String)
    (keys : List ApiKey) (userId expiredKey expiry : String) (k : ApiKey)
    (hfind : keys.find? (fun x => x.userId == userId && x.keyHash == hash expiredKey && !x.isRevoked) = some k) :
    (now < k.expiresAt →
       rolloverKey hash now randomKey keys userId expiredKey expiry
         = (keys, RolloverResponse.notYetExpired))
    ∧ (∀ exp, k.expiresAt ≤ now → calculateExpiry now expiry = some exp →
       rolloverKey hash now randomKey keys userId expiredKey expiry
         = (saveKey keys { k with isRevoked := true } ++
             [{ userId := userId, keyHash := hash ("sk_live_" ++ randomKey),
                name := k.name, permissions := k.permissions,
                expiresAt := exp, isRevoked := false }],
            RolloverResponse.ok
              { userId := userId, keyHash := hash ("sk_live_" ++ randomKey),
                name := k.name, permissions := k.permissions,
                expiresAt := exp, isRevoked := false }
              ("sk_live_" ++ randomKey))) := by
  constructor
  · intro hlt
    simp [rolloverKey, hfind, hlt]
  · intro exp hle hce
    have hnot : ¬ now < k.expiresAt := not_lt.mpr hle
    simp [rolloverKey, hfind, hnot, createKey, hce]

/-- Witness for claim C9: an expired key of u12 with expiry 10 at now 50 rolls
over into a fresh key with the same name and permissions expiring one hour
after now. -/
theorem rolloverKey_spec_witness :
    rolloverKey (fun s => "H:" ++ s) 50 "abc"
      [{ userId := "u12", keyHash := "H:sk_old", name := "svc",
         permissions := ["deposit", "read"], expiresAt := 10, isRevoked := false }]
      "u12" "sk_old" "1H"
    = (saveKey
         [{ userId := "u12", keyHash := "H:sk_old", name := "svc",
            permissions := ["deposit", "read"], expiresAt := 10, isRevoked := false }]
         { userId := "u12", keyHash := "H:sk_old", name := "svc",
           permissions := ["deposit", "read"], expiresAt := 10, isRevoked := true } ++
         [{ userId := "u12", keyHash := "H:sk_live_abc", name := "svc",
            permissions := ["deposit", "read"], expiresAt := 3600050, isRevoked := false }],
       RolloverResponse.ok
         { userId := "u12", keyHash := "H:sk_live_abc", name := "svc",
           permissions := ["deposit", "read"], expiresAt := 3600050, isRevoked := false }
         "sk_live_abc") :=
  (rolloverKey_spec (fun s => "H:" ++ s) 50 "abc"
    [{ userId := "u12", keyHash := "H:sk_old", name := "svc",
       permissions := ["deposit", "read"], expiresAt := 10, isRevoked := false }]
    "u12" "sk_old" "1H"
    { userId := "u12", keyHash := "H:sk_old", name := "svc",
      permissions := ["deposit", "read"], expiresAt := 10, isRevoked := false }
    rfl).2 3600050 (by decide) (by decide)
